import Mathlib

/-!
Shallow embedding of the prompt-processor pipeline
(`input_processor.py`, `refinement_engine.py`, `prompt_template.py`,
`main_system.py`) and verification of its specification claims.

Python strings are modelled as Lean `String`, Python dict-shaped results as
Lean structures, and the external collaborators (filesystem, OCR, PDF and
DOCX libraries) as an explicit environment record of oracles so that the
extraction functions stay pure.
-/

/-! ### Python string primitives

Executable models of the Python string operations used by the source
(`str.lower`, `str.upper`, `str.strip`, `str.split()`, substring and
character containment, `str.join`). Matching is over the code-point list of
the string, as in the source; case mapping is the ASCII mapping provided by
`Char.toLower`/`Char.toUpper`, which covers every string the program
manipulates. -/

/-- Model of the Python substring test `sub in s`: `sub` occurs contiguously
inside `s`. -/
def strContains (s sub : String) : Bool := decide (sub.data <:+: s.data)

/-- Model of Python `s.lower()`. -/
def pyLower (s : String) : String := String.mk (s.data.map Char.toLower)

/-- Model of Python `s.upper()`. -/
def pyUpper (s : String) : String := String.mk (s.data.map Char.toUpper)

/-- Model of Python `s.strip()`: remove leading and trailing whitespace. -/
def pyStrip (s : String) : String :=
  String.mk (((s.data.dropWhile Char.isWhitespace).reverse.dropWhile Char.isWhitespace).reverse)

/-- Model of the Python character test `c in s`. -/
def pyContainsChar (s : String) (c : Char) : Bool := s.data.contains c

/-- Model of Python `s.split()` with no separator: maximal runs of
non-whitespace characters, empty runs discarded. -/
def pySplit (s : String) : List String :=
  ((s.data.splitOnP (fun c => c.isWhitespace)).filter (fun w => w ≠ [])).map (fun w => String.mk w)

/-- Model of Python `sep.join(parts)`. -/
def pyJoin (sep : String) : List String → String
  | [] => ""
  | a :: as => as.foldl (fun acc x => acc ++ sep ++ x) a

/-- Model of Python `os.path.basename`: the part after the last `/`. -/
def pyBasename (p : String) : String :=
  String.mk ((p.data.splitOnP (fun c => c = '/')).getLastD p.data)

/-- Model of `pathlib.Path(p).name`: the last non-empty `/`-separated
component. -/
def pathFinalName (p : String) : String :=
  String.mk (((p.data.splitOnP (fun c => c = '/')).filter (fun w => w ≠ [])).getLastD [])

/-- Index of the last `.` in a character list, if any (Python `rfind`). -/
def lastDotIdx (name : List Char) : Option Nat :=
  match name.reverse.findIdx? (fun c => c = '.') with
  | none => none
  | some j => some (name.length - 1 - j)

/-- Model of `pathlib.Path(p).suffix`: the final extension of the last
component, empty when the only dot is leading or trailing. -/
def pathSuffix (p : String) : String :=
  let name := (pathFinalName p).data
  match lastDotIdx name with
  | some i => if 0 < i ∧ i < name.length - 1 then String.mk (name.drop i) else ""
  | none => ""

/-! ### Data model of `input_processor.py`

A `ProcessedInput` models the result dict that every extractor returns:
keys `type`, `content`, `metadata`, `success` and the optional `error`.
Metadata values are strings, numbers, integer pairs (image sizes) or string
lists, captured by `MValue`. -/

/-- Scalar or sequence value stored in a result's metadata mapping. -/
inductive MValue where
  | str (s : String)
  | nat (n : Nat)
  | pairNat (a b : Nat)
  | strList (l : List String)
deriving DecidableEq

/-- Metadata mapping of an extraction result (association list, as the
insertion-ordered Python dict). -/
abbrev Metadata := List (String × MValue)

/-- Result dict produced by `process_input` and the individual extractors. -/
structure ProcessedInput where
  type : String
  content : String
  metadata : Metadata
  success : Bool
  error : Option String := none
deriving DecidableEq

/-- Combined result dict produced by `process_multiple_inputs`; its metadata
holds the parallel `sources` and `types` sequences, and all individual
results are retained. -/
structure CombinedResult where
  type : String
  content : String
  sources : List String
  types : List String
  individual_results : List ProcessedInput
  success : Bool
deriving DecidableEq

/-- Lookup of a string-valued metadata key with a default, modelling
`metadata.get(key, default)` (the keys so accessed always hold strings). -/
def metaGetStr (m : Metadata) (k d : String) : String :=
  match m.find? (fun kv => kv.1 = k) with
  | some (_, MValue.str s) => s
  | some _ => d
  | none => d

/-- Environment of external collaborators: the filesystem `os.path.exists`
test, the text-file reader, and the availability flags and extraction
oracles of the optional PIL/pytesseract, PyPDF2 and python-docx backends.
An `Except.error` models an exception raised by the library, carrying the
exception's message. -/
structure Env where
  pathExists : String → Bool
  readText : String → Except String String
  imageAvail : Bool
  ocr : String → Except String (String × (Nat × Nat) × String)
  pdfAvail : Bool
  pdfPages : String → Except String (List String)
  docxAvail : Bool
  docxDoc : String → Except String (List String × List (List (List String)))

/-- Error result dict shared by every failure branch of the extractors:
`type` is `error`, content empty, metadata empty, `success` false. -/
def errorResult (msg : String) : ProcessedInput :=
  { type := "error", content := "", metadata := [], success := false, error := some msg }

/-! ### Extractors and dispatcher (`InputProcessor`) -/

/-- Extension table `supported_formats['text']`. -/
def supported_formats_text : List String := [".txt", ".md"]

/-- Extension table `supported_formats['image']`. -/
def supported_formats_image : List String := [".jpg", ".jpeg", ".png", ".bmp", ".gif"]

/-- Extension table `supported_formats['pdf']`. -/
def supported_formats_pdf : List String := [".pdf"]

/-- Extension table `supported_formats['docx']`. -/
def supported_formats_docx : List String := [".docx"]

/-- Embedding of `InputProcessor.process_text`: literal text input. -/
def process_text (text : String) : ProcessedInput :=
  { type := "text"
  , content := pyStrip text
  , metadata := [("length", MValue.nat text.length), ("source", MValue.str "direct_input")]
  , success := true }

/-- Embedding of `InputProcessor.process_text_file`. -/
def process_text_file (env : Env) (file_path : String) : ProcessedInput :=
  match env.readText file_path with
  | Except.ok content =>
      { type := "text"
      , content := pyStrip content
      , metadata := [("filename", MValue.str (pyBasename file_path)),
                     ("length", MValue.nat content.length),
                     ("source", MValue.str "file")]
      , success := true }
  | Except.error e => errorResult e

/-- Embedding of `InputProcessor.process_image`. The source guards with
`Image is None or pytesseract is None`; both are `None` exactly when their
module failed to load, captured by the single `imageAvail` flag. -/
def process_image (env : Env) (image_path : String) : ProcessedInput :=
  if !env.imageAvail then
    errorResult "PIL or pytesseract not installed"
  else
    match env.ocr image_path with
    | Except.ok (text, size, fmt) =>
        { type := "image"
        , content := pyStrip text
        , metadata := [("filename", MValue.str (pyBasename image_path)),
                       ("size", MValue.pairNat size.1 size.2),
                       ("format", MValue.str fmt),
                       ("source", MValue.str "ocr")]
        , success := true }
    | Except.error e => errorResult ("Image processing error: " ++ e)

/-- Embedding of `InputProcessor.process_pdf`: page texts are concatenated,
each followed by a newline. -/
def process_pdf (env : Env) (pdf_path : String) : ProcessedInput :=
  if !env.pdfAvail then
    errorResult "PyPDF2 not installed"
  else
    match env.pdfPages pdf_path with
    | Except.ok pages =>
        let text := String.join (pages.map (fun page => page ++ "\n"))
        { type := "pdf"
        , content := pyStrip text
        , metadata := [("filename", MValue.str (pyBasename pdf_path)),
                       ("num_pages", MValue.nat pages.length),
                       ("length", MValue.nat text.length),
                       ("source", MValue.str "pdf_extraction")]
        , success := true }
    | Except.error e => errorResult ("PDF processing error: " ++ e)

/-- Embedding of `InputProcessor.process_docx`: paragraphs joined by
newlines, then a `Tables:` block when any table row exists, each row's cells
joined by `" | "`. -/
def process_docx (env : Env) (docx_path : String) : ProcessedInput :=
  if !env.docxAvail then
    errorResult "python-docx not installed"
  else
    match env.docxDoc docx_path with
    | Except.ok (paragraphs, tables) =>
        let text0 := pyJoin "\n" paragraphs
        let table_text := (tables.map (fun t => t.map (fun row => pyJoin " | " row))).flatten
        let text := if table_text ≠ [] then text0 ++ "\n\nTables:\n" ++ pyJoin "\n" table_text
                    else text0
        { type := "docx"
        , content := pyStrip text
        , metadata := [("filename", MValue.str (pyBasename docx_path)),
                       ("num_paragraphs", MValue.nat paragraphs.length),
                       ("num_tables", MValue.nat tables.length),
                       ("length", MValue.nat text.length),
                       ("source", MValue.str "docx_extraction")]
        , success := true }
    | Except.error e => errorResult ("DOCX processing error: " ++ e)

/-- Extension routing of `InputProcessor.process_input` for an existing
path, over the computed `file_ext`. -/
def dispatch_by_ext (env : Env) (input_path file_ext : String) : ProcessedInput :=
  if file_ext ∈ supported_formats_text then process_text_file env input_path
  else if file_ext ∈ supported_formats_image then process_image env input_path
  else if file_ext ∈ supported_formats_pdf then process_pdf env input_path
  else if file_ext ∈ supported_formats_docx then process_docx env input_path
  else errorResult ("Unsupported file format: " ++ file_ext)

/-- Embedding of `InputProcessor.process_input`, the format dispatcher:
`file_ext` is the lowercased `Path.suffix` of the reference. -/
def process_input (env : Env) (input_path : String) : ProcessedInput :=
  if !env.pathExists input_path then
    if !(['.', '/', '\\'].any (fun c => pyContainsChar input_path c)) then
      process_text input_path
    else
      errorResult "File not found"
  else
    dispatch_by_ext env input_path (pyLower (pathSuffix input_path))

/-- Embedding of `InputProcessor.process_multiple_inputs`. The Python loop
appends, per successful result and in input order, a source-delimiter line
and the content to the combined block and one entry each to the `sources`
and `types` sequences; that loop is expressed as a filter over the ordered
result list followed by maps. -/
def process_multiple_inputs (env : Env) (input_paths : List String) : CombinedResult :=
  let results := input_paths.map (process_input env)
  let successful := results.filter (fun r => r.success)
  let combined_content :=
    (successful.map (fun r =>
      [("--- Source: " ++ metaGetStr r.metadata "filename" "text input" ++ " ---"), r.content])).flatten
  { type := "mixed"
  , content := pyJoin "\n\n" combined_content
  , sources := successful.map (fun r => metaGetStr r.metadata "filename" "text")
  , types := successful.map (fun r => r.type)
  , individual_results := results
  , success := results.all (fun r => r.success) }

/-! ### Data model of `prompt_template.py` -/

/-- Requirement priority enum `PriorityLevel`. -/
inductive PriorityLevel where
  | critical
  | high
  | medium
  | low
deriving DecidableEq

/-- String value of a `PriorityLevel` member. -/
def PriorityLevel.value : PriorityLevel → String
  | .critical => "critical"
  | .high => "high"
  | .medium => "medium"
  | .low => "low"

/-- Input-kind enum `InputType`. -/
inductive InputType where
  | text
  | image
  | pdf
  | docx
  | mixed
deriving DecidableEq

/-- String value of an `InputType` member. -/
def InputType.value : InputType → String
  | .text => "text"
  | .image => "image"
  | .pdf => "pdf"
  | .docx => "docx"
  | .mixed => "mixed"

/-- Dataclass `Requirement`. -/
structure Requirement where
  description : String
  priority : PriorityLevel
  category : String
deriving DecidableEq

/-- Dataclass `TechnicalConstraint`. -/
structure TechnicalConstraint where
  constraint_type : String
  description : String
  is_mandatory : Bool
deriving DecidableEq

/-- Dataclass `RefinedPrompt`. The Python float `confidence_score` is
modelled as a rational. -/
structure RefinedPrompt where
  prompt_id : String
  timestamp : String
  input_types : List InputType
  core_intent : String
  detailed_description : String
  domain : String
  functional_requirements : List Requirement := []
  technical_constraints : List TechnicalConstraint := []
  expected_outputs : List String := []
  deliverable_format : Option String := none
  background_context : Option String := none
  success_criteria : List String := []
  additional_notes : Option String := none
  confidence_score : ℚ := 0
  ambiguities : List String := []
  assumptions_made : List String := []
deriving DecidableEq

/-! ### Markdown serialization (`RefinedPrompt.to_markdown`) -/

/-- Decimal digit list of `n` (auxiliary, structural on a fuel bound). -/
def natToStringAux : Nat → Nat → List Char
  | 0, _ => []
  | fuel+1, n => if n = 0 then [] else natToStringAux fuel (n / 10) ++ [Char.ofNat (48 + n % 10)]

/-- Decimal string of a natural number. -/
def natToString (n : Nat) : String := if n = 0 then "0" else String.mk (natToStringAux n n)

/-- Model of the Python format `f"{q:.2f}"` for the non-negative scores the
program produces: the value rounded to hundredths, printed with exactly two
decimals. -/
def fmt2 (q : ℚ) : String :=
  let n := ((200 * q.num + (q.den : ℤ)) / (2 * (q.den : ℤ))).toNat
  natToString (n / 100) ++ "." ++
    (if n % 100 < 10 then "0" ++ natToString (n % 100) else natToString (n % 100))

/-- Python truthiness of an optional string (`None` and `""` are falsy). -/
def optTruthy : Option String → Bool
  | none => false
  | some s => s ≠ ""

/-- Requirement bullet line of `to_markdown`. -/
def reqLine (req : Requirement) : String :=
  "- [" ++ pyUpper req.priority.value ++ "] **" ++ req.category ++ "**: " ++ req.description ++ "\n"

/-- Constraint bullet line of `to_markdown`. -/
def constraintLine (c : TechnicalConstraint) : String :=
  "- [" ++ (if c.is_mandatory then "MANDATORY" else "PREFERRED") ++ "] **" ++
    c.constraint_type ++ "**: " ++ c.description ++ "\n"

/-- Embedding of `RefinedPrompt.to_markdown`, mirroring the source's
sequence of `md += ...` appends. -/
def to_markdown (rp : RefinedPrompt) : String :=
  let md := "# Refined Prompt: " ++ rp.prompt_id ++ "\n\n## Core Intent\n**Domain:** " ++
    rp.domain ++ "\n**Summary:** " ++ rp.core_intent ++ "\n\n" ++ rp.detailed_description ++
    "\n\n## Functional Requirements\n"
  let md := md ++ String.join (rp.functional_requirements.map reqLine)
  let md := md ++ (if !rp.technical_constraints.isEmpty then
    "\n## Technical Constraints\n" ++ String.join (rp.technical_constraints.map constraintLine)
    else "")
  let md := md ++ (if !rp.expected_outputs.isEmpty then
    "\n## Expected Outputs\n" ++
      String.join (rp.expected_outputs.map (fun o => "- " ++ o ++ "\n")) ++
      (if optTruthy rp.deliverable_format then
        "\n**Format:** " ++ rp.deliverable_format.getD "" ++ "\n" else "")
    else "")
  let md := md ++ (if !rp.success_criteria.isEmpty then
    "\n## Success Criteria\n" ++ String.join (rp.success_criteria.map (fun c => "- " ++ c ++ "\n"))
    else "")
  let md := md ++ (if !rp.ambiguities.isEmpty then
    "\n## ⚠️ Ambiguities Detected\n" ++ String.join (rp.ambiguities.map (fun a => "- " ++ a ++ "\n"))
    else "")
  let md := md ++ (if !rp.assumptions_made.isEmpty then
    "\n## Assumptions Made\n" ++ String.join (rp.assumptions_made.map (fun a => "- " ++ a ++ "\n"))
    else "")
  md ++ "\n---\n*Confidence Score: " ++ fmt2 rp.confidence_score ++ " | Generated: " ++
    rp.timestamp ++ "*\n"

/-! ### Relevance gate and refinement engine (`refinement_engine.py`) -/

/-- Keyword list `PromptRefinementEngine.relevance_keywords`. -/
def relevance_keywords : List String :=
  ["build", "create", "develop", "design", "implement", "make",
   "generate", "analyze", "calculate", "write", "produce",
   "system", "application", "app", "software", "tool", "solution",
   "website", "dashboard", "platform", "service", "api"]

/-- Greeting list of `is_relevant_prompt`. -/
def greetingWords : List String := ["hello", "hi", "hey", "greetings"]

/-- Spam-phrase list of `is_relevant_prompt`. -/
def spam_patterns : List String := ["buy now", "click here", "limited offer", "act now"]

/-- Embedding of `PromptRefinementEngine.is_relevant_prompt`. -/
def is_relevant_prompt (content : String) : Bool × String :=
  let content_lower := pyLower content
  if (pySplit content).length < 5 then
    (false, "Input too short (less than 5 words)")
  else if (greetingWords.any (fun g => strContains content_lower g)) &&
          decide ((pySplit content).length < 10) then
    (false, "Input appears to be a greeting")
  else if spam_patterns.any (fun p => strContains content_lower p) then
    (false, "Input appears to be spam")
  else if !(relevance_keywords.any (fun k => strContains content_lower k)) then
    (false, "Input does not contain task-related keywords")
  else
    (true, "Input appears relevant")

/-- Embedding of `PromptRefinementEngine._fallback_extraction`. The freshly
generated `uuid` token and `datetime.now()` instant are passed in as the
`prompt_id` and `timestamp` parameters; the metadata argument is accepted
but, as in the source, never used. -/
def fallback_extraction (prompt_id timestamp : String) (raw_content : String)
    (input_metadata : Metadata) : RefinedPrompt :=
  let content_lower := pyLower raw_content
  let domain :=
    if ["app", "software", "code", "program", "system"].any
        (fun w => strContains content_lower w) then "software_development"
    else if ["design", "ui", "ux", "interface", "mockup"].any
        (fun w => strContains content_lower w) then "product_design"
    else if ["analyze", "data", "statistics", "report"].any
        (fun w => strContains content_lower w) then "data_analysis"
    else "other"
  let requirements :=
    (if strContains content_lower "authentication" || strContains content_lower "login" then
      [Requirement.mk "User authentication" PriorityLevel.critical "authentication"] else []) ++
    (if strContains content_lower "database" || strContains content_lower "data storage" then
      [Requirement.mk "Data persistence" PriorityLevel.high "data"] else [])
  { prompt_id := prompt_id
  , timestamp := timestamp
  , input_types := [InputType.text]
  , core_intent := if raw_content.length > 100 then String.mk (raw_content.data.take 100) ++ "..."
                   else raw_content
  , detailed_description := raw_content
  , domain := domain
  , functional_requirements := requirements
  , confidence_score := 0.3
  , ambiguities := ["Automatic extraction - may be incomplete"]
  , assumptions_made := ["Used rule-based extraction"] }

/-- Embedding of `PromptRefinementEngine.refine_with_claude`: the body
builds a request envelope but the service call is a placeholder, so both
the try branch and the except branch return `_fallback_extraction` on the
same arguments. -/
def refine_with_claude (prompt_id timestamp : String) (raw_content : String)
    (input_metadata : Metadata) : RefinedPrompt :=
  fallback_extraction prompt_id timestamp raw_content input_metadata

/-- Embedding of the `input_types` computation of
`PromptRefinementEngine._create_refined_prompt`: the declared metadata
`type` entry is looked up in `input_type_map` and defaults to
`InputType.TEXT`. -/
def create_refined_prompt_input_types (input_metadata : Metadata) : List InputType :=
  let declared := metaGetStr input_metadata "type" "text"
  let mapped :=
    if declared = "text" then some InputType.text
    else if declared = "image" then some InputType.image
    else if declared = "pdf" then some InputType.pdf
    else if declared = "docx" then some InputType.docx
    else if declared = "mixed" then some InputType.mixed
    else none
  [mapped.getD InputType.text]

/-! ### Concrete test environments -/

/-- Environment in which no path exists and no optional backend is
installed. -/
def trivEnv : Env :=
  { pathExists := fun _ => false
  , readText := fun _ => Except.error "read failure"
  , imageAvail := false
  , ocr := fun _ => Except.error "ocr failure"
  , pdfAvail := false
  , pdfPages := fun _ => Except.error "pdf failure"
  , docxAvail := false
  , docxDoc := fun _ => Except.error "docx failure" }

/-- Environment in which every path exists and every backend succeeds. -/
def fileEnv : Env :=
  { pathExists := fun _ => true
  , readText := fun _ => Except.ok "Build a system"
  , imageAvail := true
  , ocr := fun _ => Except.ok ("scanned text", (640, 480), "PNG")
  , pdfAvail := true
  , pdfPages := fun _ => Except.ok ["page one"]
  , docxAvail := true
  , docxDoc := fun _ => Except.ok (["first paragraph"], []) }

/-! ### Claim theorems -/

/-- C10: `refine_with_claude` returns exactly the result of
`_fallback_extraction` on the same arguments (the freshly generated
`prompt_id` and `timestamp` being equal parameters of both), so the primary
path and the fallback path are behaviorally equivalent and the external
refinement service is never consulted. -/
theorem refine_with_claude_eq_fallback (prompt_id timestamp raw_content : String)
    (input_metadata : Metadata) :
    refine_with_claude prompt_id timestamp raw_content input_metadata =
      fallback_extraction prompt_id timestamp raw_content input_metadata := rfl

/-- C5: the fallback extraction of
`"Build a login system with database storage for our company"` yields
domain `software_development`, exactly the critical `authentication` and
high `data` requirements, confidence score `0.3`, and the fixed ambiguity
list. -/
theorem fallback_login_database_scenario :
    (fallback_extraction "PROMPT_00000000" "2026-01-01T00:00:00"
        "Build a login system with database storage for our company" []).domain =
      "software_development" ∧
    (fallback_extraction "PROMPT_00000000" "2026-01-01T00:00:00"
        "Build a login system with database storage for our company" []).functional_requirements =
      [Requirement.mk "User authentication" PriorityLevel.critical "authentication",
       Requirement.mk "Data persistence" PriorityLevel.high "data"] ∧
    (fallback_extraction "PROMPT_00000000" "2026-01-01T00:00:00"
        "Build a login system with database storage for our company" []).confidence_score = 0.3 ∧
    (fallback_extraction "PROMPT_00000000" "2026-01-01T00:00:00"
        "Build a login system with database storage for our company" []).ambiguities =
      ["Automatic extraction - may be incomplete"] :=
  ⟨by decide, by decide, rfl, by decide⟩

/-- C6 counterexample: with declared metadata type `pdf`, the fallback
extraction still produces `input_types = [text]`, not the `[pdf]` that the
metadata-derived mapping (the `_create_refined_prompt` computation the
claim describes) yields. -/
theorem fallback_input_types_ignore_metadata :
    ¬ ((fallback_extraction "PROMPT_00000000" "2026-01-01T00:00:00" "sample content"
          [("type", MValue.str "pdf")]).input_types =
        create_refined_prompt_input_types [("type", MValue.str "pdf")]) := by decide

/-- C6 (amended): the fallback extraction always sets
`input_types = [InputType.TEXT]`, ignoring the supplied metadata; the
metadata-derived mapping exists only in `_create_refined_prompt`, which the
fallback path never invokes. -/
theorem fallback_input_types_always_text (prompt_id timestamp raw_content : String)
    (input_metadata : Metadata) :
    (fallback_extraction prompt_id timestamp raw_content input_metadata).input_types =
      [InputType.text] := rfl

/-- C8: any content of fewer than 5 whitespace-separated words is rejected
by the relevance gate with the too-short reason, whatever else the content
contains — the word-count check is the first test in the decision order. -/
theorem short_input_rejected (content : String) (h : (pySplit content).length < 5) :
    is_relevant_prompt content = (false, "Input too short (less than 5 words)") := by
  unfold is_relevant_prompt
  rw [if_pos h]

/-- Witness for C8 at a three-word input that contains both a greeting and
a task keyword: the first check still fires. -/
theorem short_input_rejected_witness :
    (pySplit "hello build now").length < 5 ∧
    is_relevant_prompt "hello build now" = (false, "Input too short (less than 5 words)") :=
  ⟨by decide, short_input_rejected "hello build now" (by decide)⟩

/-- C9 counterexample: with the OCR backend unavailable the image extractor
does return `success = false`, but its error message is
`"PIL or pytesseract not installed"`, not the `"OCR dependency unavailable"`
stated by the claim. -/
theorem process_image_error_message :
    (process_image trivEnv "photo.png").success = false ∧
    (process_image trivEnv "photo.png").error = some "PIL or pytesseract not installed" ∧
    (process_image trivEnv "photo.png").error ≠ some "OCR dependency unavailable" := by decide

/-- C9 (amended): whenever the PIL/pytesseract backend is unavailable,
`process_image` returns the error result with message
`"PIL or pytesseract not installed"` instead of raising. -/
theorem process_image_unavailable (env : Env) (image_path : String)
    (h : env.imageAvail = false) :
    process_image env image_path = errorResult "PIL or pytesseract not installed" := by
  simp [process_image, h]

/-- Witness for C9 (amended) in the backend-free environment. -/
theorem process_image_unavailable_witness :
    process_image trivEnv "photo.png" = errorResult "PIL or pytesseract not installed" :=
  process_image_unavailable trivEnv "photo.png" rfl

/-! ### Error-shape invariant helpers (used by C1) -/

/-- Failure shape of a result: empty content, `error` kind, empty metadata. -/
def ErrInv (r : ProcessedInput) : Prop :=
  r.success = false → r.content = "" ∧ r.type = "error" ∧ r.metadata = []

theorem errInv_errorResult (msg : String) : ErrInv (errorResult msg) :=
  fun _ => ⟨rfl, rfl, rfl⟩

theorem errInv_process_text (text : String) : ErrInv (process_text text) := by
  intro h
  simp [process_text] at h

theorem errInv_process_text_file (env : Env) (p : String) : ErrInv (process_text_file env p) := by
  unfold process_text_file
  cases env.readText p with
  | ok c => intro h; simp at h
  | error e => exact errInv_errorResult e

theorem errInv_process_image (env : Env) (p : String) : ErrInv (process_image env p) := by
  unfold process_image
  cases env.imageAvail with
  | false => exact errInv_errorResult _
  | true =>
    cases env.ocr p with
    | ok v => obtain ⟨text, size, fmt⟩ := v; intro h; simp at h
    | error e => exact errInv_errorResult _

theorem errInv_process_pdf (env : Env) (p : String) : ErrInv (process_pdf env p) := by
  unfold process_pdf
  cases env.pdfAvail with
  | false => exact errInv_errorResult _
  | true =>
    cases env.pdfPages p with
    | ok pages => intro h; simp at h
    | error e => exact errInv_errorResult _

theorem errInv_process_docx (env : Env) (p : String) : ErrInv (process_docx env p) := by
  unfold process_docx
  cases env.docxAvail with
  | false => exact errInv_errorResult _
  | true =>
    cases env.docxDoc p with
    | ok v => obtain ⟨paragraphs, tables⟩ := v; intro h; simp at h
    | error e => exact errInv_errorResult _

theorem errInv_dispatch_by_ext (env : Env) (p ext : String) :
    ErrInv (dispatch_by_ext env p ext) := by
  unfold dispatch_by_ext
  split
  · exact errInv_process_text_file _ _
  · split
    · exact errInv_process_image _ _
    · split
      · exact errInv_process_pdf _ _
      · split
        · exact errInv_process_docx _ _
        · exact errInv_errorResult _

theorem errInv_process_input (env : Env) (p : String) : ErrInv (process_input env p) := by
  unfold process_input
  split
  · split
    · exact errInv_process_text _
    · exact errInv_errorResult _
  · exact errInv_dispatch_by_ext _ _ _

/-- C1 (amended): for every result of `process_input` or of the individual
extractors, `success = false` implies empty content, kind `error` and empty
metadata. The combined result of `process_multiple_inputs` is excluded: on
failure it keeps kind `mixed`, the partial combined content and the
`sources`/`types` metadata (see the counterexample). -/
theorem extractor_error_invariant (env : Env) (p text : String) :
    ((process_input env p).success = false →
      (process_input env p).content = "" ∧ (process_input env p).type = "error" ∧
        (process_input env p).metadata = []) ∧
    ((process_text text).success = false →
      (process_text text).content = "" ∧ (process_text text).type = "error" ∧
        (process_text text).metadata = []) ∧
    ((process_text_file env p).success = false →
      (process_text_file env p).content = "" ∧ (process_text_file env p).type = "error" ∧
        (process_text_file env p).metadata = []) ∧
    ((process_image env p).success = false →
      (process_image env p).content = "" ∧ (process_image env p).type = "error" ∧
        (process_image env p).metadata = []) ∧
    ((process_pdf env p).success = false →
      (process_pdf env p).content = "" ∧ (process_pdf env p).type = "error" ∧
        (process_pdf env p).metadata = []) ∧
    ((process_docx env p).success = false →
      (process_docx env p).content = "" ∧ (process_docx env p).type = "error" ∧
        (process_docx env p).metadata = []) :=
  ⟨errInv_process_input env p, errInv_process_text text, errInv_process_text_file env p,
   errInv_process_image env p, errInv_process_pdf env p, errInv_process_docx env p⟩

/-- Witness for C1 (amended) at a non-existing path-like reference. -/
theorem extractor_error_invariant_witness :
    (process_input trivEnv "missing/file.txt").content = "" ∧
    (process_input trivEnv "missing/file.txt").type = "error" ∧
    (process_input trivEnv "missing/file.txt").metadata = [] :=
  (extractor_error_invariant trivEnv "missing/file.txt" "x").1 (by decide)

/-- C1 counterexample: a failing aggregate of `process_multiple_inputs` has
`success = false` but kind `mixed` (not `error`), and with a successful
sub-input its combined content is non-empty. -/
theorem multi_input_failure_shape :
    (process_multiple_inputs trivEnv ["missing/file.txt"]).success = false ∧
    (process_multiple_inputs trivEnv ["missing/file.txt"]).type ≠ "error" ∧
    (process_multiple_inputs trivEnv ["write good words here", "missing/file.txt"]).success = false ∧
    (process_multiple_inputs trivEnv ["write good words here", "missing/file.txt"]).content ≠ "" := by
  decide

/-- C2 counterexample: on the one-element input sequence the aggregation
path prepends a source-delimiter block, so the content handed downstream
differs from the single-input path's content. -/
theorem single_vs_aggregate_content_differs :
    (process_multiple_inputs trivEnv ["build a fine system"]).content ≠
      (process_input trivEnv "build a fine system").content := by decide

/-- C2 (amended): for a single reference the aggregate's success flag
equals the single-input success flag, but the downstream content is the
delimiter line `--- Source: <filename-or-"text input"> ---` followed by a
blank line and the single result's content (empty when the single input
failed), and the metadata becomes the `sources`/`types` sequences. -/
theorem single_input_aggregate (env : Env) (r : String) :
    (process_multiple_inputs env [r]).success = (process_input env r).success ∧
    ((process_input env r).success = true →
      (process_multiple_inputs env [r]).content =
        "--- Source: " ++ metaGetStr (process_input env r).metadata "filename" "text input" ++
          " ---" ++ "\n\n" ++ (process_input env r).content ∧
      (process_multiple_inputs env [r]).sources =
        [metaGetStr (process_input env r).metadata "filename" "text"] ∧
      (process_multiple_inputs env [r]).types = [(process_input env r).type]) ∧
    ((process_input env r).success = false →
      (process_multiple_inputs env [r]).content = "" ∧
      (process_multiple_inputs env [r]).sources = [] ∧
      (process_multiple_inputs env [r]).types = []) := by
  cases hs : (process_input env r).success with
  | true =>
    refine ⟨?_, fun _ => ⟨?_, ?_, ?_⟩, fun hf => absurd hf (by decide)⟩ <;>
      simp [process_multiple_inputs, hs, pyJoin]
  | false =>
    refine ⟨?_, fun ht => absurd ht (by decide), fun _ => ⟨?_, ?_, ?_⟩⟩ <;>
      simp [process_multiple_inputs, hs, pyJoin]

/-- Witness for C2 (amended): one successful literal-text reference and one
failing path-like reference. -/
theorem single_input_aggregate_witness :
    (process_multiple_inputs trivEnv ["build a fine system"]).content =
      "--- Source: " ++
        metaGetStr (process_input trivEnv "build a fine system").metadata "filename" "text input" ++
        " ---" ++ "\n\n" ++ (process_input trivEnv "build a fine system").content ∧
    (process_multiple_inputs trivEnv ["missing/file.txt"]).content = "" :=
  ⟨((single_input_aggregate trivEnv "build a fine system").2.1 (by decide)).1,
   ((single_input_aggregate trivEnv "missing/file.txt").2.2 (by decide)).1⟩

/-- C3: the aggregate's success flag is the conjunction of all individual
success flags (so one failure among N ≥ 2 inputs makes the aggregate fail),
and when all N inputs succeed the `sources` and `types` sequences carry one
entry per input, in original input order, hence each has length N. -/
theorem aggregate_success_and_order (env : Env) (paths : List String) :
    (process_multiple_inputs env paths).success =
      (paths.map (process_input env)).all (fun r => r.success) ∧
    ((paths.map (process_input env)).all (fun r => r.success) = true →
      (process_multiple_inputs env paths).sources =
        paths.map (fun p => metaGetStr (process_input env p).metadata "filename" "text") ∧
      (process_multiple_inputs env paths).types =
        paths.map (fun p => (process_input env p).type) ∧
      (process_multiple_inputs env paths).sources.length = paths.length ∧
      (process_multiple_inputs env paths).types.length = paths.length) ∧
    (∀ r ∈ paths.map (process_input env), r.success = false →
      (process_multiple_inputs env paths).success = false) := by
  refine ⟨rfl, fun hall => ?_, fun r hr hf => ?_⟩
  · have hfil : (paths.map (process_input env)).filter (fun r => r.success) =
        paths.map (process_input env) :=
      List.filter_eq_self.mpr (fun r hr => List.all_eq_true.mp hall r hr)
    refine ⟨?_, ?_, ?_, ?_⟩ <;>
      simp [process_multiple_inputs, hfil, List.map_map, Function.comp]
  · show (paths.map (process_input env)).all (fun r => r.success) = false
    cases hall : (paths.map (process_input env)).all (fun r => r.success) with
    | false => rfl
    | true =>
      have := List.all_eq_true.mp hall r hr
      rw [hf] at this
      cases this

/-- Witness for C3: an all-success aggregate of two literal texts keeps both
entries in order, and an aggregate containing one failing path has overall
`success = false`. -/
theorem aggregate_success_and_order_witness :
    (process_multiple_inputs trivEnv ["build a tool for reports", "make another solution now"]).sources =
      ["build a tool for reports", "make another solution now"].map
        (fun p => metaGetStr (process_input trivEnv p).metadata "filename" "text") ∧
    (process_multiple_inputs trivEnv ["build a tool for reports", "missing/file.txt"]).success = false :=
  ⟨((aggregate_success_and_order trivEnv
      ["build a tool for reports", "make another solution now"]).2.1 (by decide)).1,
   (aggregate_success_and_order trivEnv ["build a tool for reports", "missing/file.txt"]).2.2
      (process_input trivEnv "missing/file.txt") (by decide) (by decide)⟩

/-! ### Dispatch-table lemmas (used by C4) -/

theorem dispatch_text {ext : String} (h : ext ∈ supported_formats_text) (env : Env) (p : String) :
    dispatch_by_ext env p ext = process_text_file env p := by
  fin_cases h <;> rfl

theorem dispatch_image {ext : String} (h : ext ∈ supported_formats_image) (env : Env) (p : String) :
    dispatch_by_ext env p ext = process_image env p := by
  fin_cases h <;> rfl

theorem dispatch_pdf {ext : String} (h : ext ∈ supported_formats_pdf) (env : Env) (p : String) :
    dispatch_by_ext env p ext = process_pdf env p := by
  fin_cases h <;> rfl

theorem dispatch_docx {ext : String} (h : ext ∈ supported_formats_docx) (env : Env) (p : String) :
    dispatch_by_ext env p ext = process_docx env p := by
  fin_cases h <;> rfl

theorem dispatch_unsupported {ext : String}
    (h : ext ∉ supported_formats_text ++ supported_formats_image ++
          supported_formats_pdf ++ supported_formats_docx) (env : Env) (p : String) :
    dispatch_by_ext env p ext = errorResult ("Unsupported file format: " ++ ext) := by
  simp only [List.mem_append, not_or] at h
  obtain ⟨⟨⟨h1, h2⟩, h3⟩, h4⟩ := h
  simp only [dispatch_by_ext, if_neg h1, if_neg h2, if_neg h3, if_neg h4]

/-- C4: routing of `process_input`. A non-existing reference without any of
the characters `.` `/` `\` is processed as literal text; a non-existing
reference with one of them fails with the `File not found` error; an
existing reference is routed on its lowercased suffix by the fixed
extension table, any other suffix failing with the `Unsupported file
format` error. -/
theorem format_dispatch (env : Env) (p : String) :
    (env.pathExists p = false →
      ((['.', '/', '\\'].any (fun c => pyContainsChar p c)) = false →
        process_input env p = process_text p) ∧
      ((['.', '/', '\\'].any (fun c => pyContainsChar p c)) = true →
        process_input env p = errorResult "File not found")) ∧
    (env.pathExists p = true →
      (pyLower (pathSuffix p) ∈ supported_formats_text →
        process_input env p = process_text_file env p) ∧
      (pyLower (pathSuffix p) ∈ supported_formats_image →
        process_input env p = process_image env p) ∧
      (pyLower (pathSuffix p) ∈ supported_formats_pdf →
        process_input env p = process_pdf env p) ∧
      (pyLower (pathSuffix p) ∈ supported_formats_docx →
        process_input env p = process_docx env p) ∧
      (pyLower (pathSuffix p) ∉ supported_formats_text ++ supported_formats_image ++
          supported_formats_pdf ++ supported_formats_docx →
        process_input env p = errorResult ("Unsupported file format: " ++ pyLower (pathSuffix p)))) := by
  constructor
  · intro h
    constructor <;> intro h2 <;> simp [process_input, h, h2]
  · intro h
    have hpi : process_input env p = dispatch_by_ext env p (pyLower (pathSuffix p)) := by
      simp [process_input, h]
    exact ⟨fun hm => hpi.trans (dispatch_text hm env p),
           fun hm => hpi.trans (dispatch_image hm env p),
           fun hm => hpi.trans (dispatch_pdf hm env p),
           fun hm => hpi.trans (dispatch_docx hm env p),
           fun hm => hpi.trans (dispatch_unsupported hm env p)⟩

/-- Witness for C4: the literal-text, file-not-found, `.txt`, `.png`,
`.pdf`, `.docx` and unsupported-suffix (`.exe`) routes at concrete
references. -/
theorem format_dispatch_witness :
    process_input trivEnv "just literal text" = process_text "just literal text" ∧
    process_input trivEnv "nofile.xyz" = errorResult "File not found" ∧
    process_input fileEnv "notes.txt" = process_text_file fileEnv "notes.txt" ∧
    process_input fileEnv "scan.png" = process_image fileEnv "scan.png" ∧
    process_input fileEnv "report.pdf" = process_pdf fileEnv "report.pdf" ∧
    process_input fileEnv "memo.docx" = process_docx fileEnv "memo.docx" ∧
    process_input fileEnv "tool.exe" =
      errorResult ("Unsupported file format: " ++ pyLower (pathSuffix "tool.exe")) :=
  ⟨((format_dispatch trivEnv "just literal text").1 rfl).1 (by decide),
   ((format_dispatch trivEnv "nofile.xyz").1 rfl).2 (by decide),
   ((format_dispatch fileEnv "notes.txt").2 rfl).1 (by decide),
   ((format_dispatch fileEnv "scan.png").2 rfl).2.1 (by decide),
   ((format_dispatch fileEnv "report.pdf").2 rfl).2.2.1 (by decide),
   ((format_dispatch fileEnv "memo.docx").2 rfl).2.2.2.1 (by decide),
   ((format_dispatch fileEnv "tool.exe").2 rfl).2.2.2.2 (by decide)⟩

/-! ### Markdown serialization contract (C7) -/

theorem str_empty_append (s : String) : "" ++ s = s := rfl

/-- Section list of the Markdown serialization as the spec describes it:
header, Core Intent and Functional Requirements always present; Technical
Constraints, Expected Outputs (with the optional trailing format line),
Success Criteria, Ambiguities Detected (with the warning-sign prefix the
code emits) and Assumptions Made present exactly when their backing data is
non-empty; and the closing footer line
`*Confidence Score: <2-decimal float> | Generated: <timestamp>*`. -/
def markdownSectionList (rp : RefinedPrompt) : List String :=
  [ "# Refined Prompt: " ++ rp.prompt_id ++ "\n"
  , "\n## Core Intent\n**Domain:** " ++ rp.domain ++ "\n**Summary:** " ++ rp.core_intent ++
      "\n\n" ++ rp.detailed_description ++ "\n"
  , "\n## Functional Requirements\n" ++ String.join (rp.functional_requirements.map reqLine)
  , if !rp.technical_constraints.isEmpty then
      "\n## Technical Constraints\n" ++ String.join (rp.technical_constraints.map constraintLine)
    else ""
  , if !rp.expected_outputs.isEmpty then
      "\n## Expected Outputs\n" ++
        String.join (rp.expected_outputs.map (fun o => "- " ++ o ++ "\n")) ++
        (if optTruthy rp.deliverable_format then
          "\n**Format:** " ++ rp.deliverable_format.getD "" ++ "\n" else "")
    else ""
  , if !rp.success_criteria.isEmpty then
      "\n## Success Criteria\n" ++ String.join (rp.success_criteria.map (fun c => "- " ++ c ++ "\n"))
    else ""
  , if !rp.ambiguities.isEmpty then
      "\n## ⚠️ Ambiguities Detected\n" ++ String.join (rp.ambiguities.map (fun a => "- " ++ a ++ "\n"))
    else ""
  , if !rp.assumptions_made.isEmpty then
      "\n## Assumptions Made\n" ++ String.join (rp.assumptions_made.map (fun a => "- " ++ a ++ "\n"))
    else ""
  , "\n---\n*Confidence Score: " ++ fmt2 rp.confidence_score ++ " | Generated: " ++
      rp.timestamp ++ "*\n" ]

/-- Concatenation of the spec-described section list, in order. -/
def markdownSpec (rp : RefinedPrompt) : String := String.join (markdownSectionList rp)

/-- C7 (amended): `to_markdown` emits exactly the spec's sections in the
spec's order — the conditional ones present iff their backing data is
non-empty, each requirement as `- [<PRIORITY>] **<category>**: <description>`,
the footer line last — with the one difference that the ambiguities heading
is `## ⚠️ Ambiguities Detected` (warning sign included), not the bare
`## Ambiguities Detected` of the claim. -/
theorem to_markdown_eq_markdownSpec (rp : RefinedPrompt) :
    to_markdown rp = markdownSpec rp := by
  unfold to_markdown markdownSpec markdownSectionList
  simp only [String.join, List.foldl_cons, List.foldl_nil, str_empty_append, String.append_assoc]
  rfl

/-- Concrete `RefinedPrompt` with a non-empty ambiguity list (the shape the
fallback extractor always produces). -/
def sampleRefined : RefinedPrompt :=
  { prompt_id := "PROMPT_ABCD1234"
  , timestamp := "2026-01-01T00:00:00"
  , input_types := [InputType.text]
  , core_intent := "Build a system"
  , detailed_description := "Build a system"
  , domain := "software_development"
  , functional_requirements := [Requirement.mk "User authentication" PriorityLevel.critical "authentication"]
  , confidence_score := ⟨3, 10, by decide, by decide⟩
  , ambiguities := ["Automatic extraction - may be incomplete"]
  , assumptions_made := ["Used rule-based extraction"] }

set_option maxRecDepth 100000 in
/-- C7 counterexample: with a non-empty ambiguity list the serialization
contains no `## Ambiguities Detected` heading — the emitted heading is
`## ⚠️ Ambiguities Detected`. -/
theorem markdown_ambiguities_heading :
    sampleRefined.ambiguities ≠ [] ∧
    strContains (to_markdown sampleRefined) "## Ambiguities Detected" = false ∧
    strContains (to_markdown sampleRefined) "## ⚠️ Ambiguities Detected" = true := by decide
